import Mathlib

/-!
Shallow embedding of the shapeup package: linear-distance conversion
(shapeup/distance.py), spatial references and the UTM zone resolver
(shapeup/sr.py), and the spatially referenced geometry wrappers
(shapeup/geometry/base.py).

Python floats are modelled as rationals and Python ints as integers.  The
external Shapely and pyproj engines are out of scope for the repository and
are modelled as an explicit `Engine` parameter supplying the black-box
operations the wrappers delegate to.  The process-wide caches in shapeup/sr.py
(`_sr_cache`, `_proj_cache`, `_transform_fn_cache`) are value-transparent
memoizations, so cached lookups are modelled by direct construction.
-/

/-- Embeds `Sr` from shapeup/sr.py: a named tuple of the spatial reference
identifier and the authority string; equality is field-wise tuple equality. -/
structure Sr where
  srid : Int
  authority : String
deriving DecidableEq, Repr

/-- Embeds the `WGS_84` constant from shapeup/sr.py: EPSG 4326 with the
`Authorities.EPSG` value, the string `epsg`. -/
def WGS_84 : Sr := { srid := 4326, authority := "epsg" }

/-- Embeds the values that can reach the `units` parameter at runtime: the
two members of the `Units` enum from shapeup/distance.py, together with any
other Python value (dynamically typed callers may pass a value outside the
enum, modelled here by a string naming it). -/
inductive UnitsArg
  | METERS
  | KILOMETERS
  | unknown (v : String)
deriving DecidableEq, Repr

/-- Embeds the `_meter_conversions` dictionary from shapeup/distance.py;
`none` models the absence of a key, on which the dictionary subscript raises
`KeyError`. -/
def meterConversions : UnitsArg → Option Rat
  | .METERS => some 1
  | .KILOMETERS => some 1000
  | .unknown _ => none

/-- Exceptions the modelled code paths can raise.  `unknownUnits` is the
`KeyError` raised by the `_meter_conversions` subscript in `meters` (the
failure the spec names UnknownUnitsError); `loadError` is the exception
raised inside `SrGeometry.load` when the geometry or the `Sr` cannot be
rebuilt from the mapping. -/
inductive PyError
  | unknownUnits
  | loadError
deriving DecidableEq, Repr

/-- Embeds `meters` from shapeup/distance.py, whose body is
`return n/_meter_conversions[units]`: the quantity is divided by the table
factor, and a units value missing from the table raises. -/
def meters (n : Rat) (units : UnitsArg) : Except PyError Rat :=
  match meterConversions units with
  | some f => .ok (n / f)
  | none => .error .unknownUnits

/-- Decimal digit character, as produced by Python `str` on an int. -/
def digitChar10 (n : Nat) : Char := Char.ofNat (48 + n)

/-- Decimal rendering of a natural number by structural recursion on a fuel
argument, so that the kernel can evaluate it. -/
def natDecimalAux : Nat → Nat → List Char
  | 0, _ => []
  | fuel + 1, n =>
    if n < 10 then [digitChar10 n]
    else natDecimalAux fuel (n / 10) ++ [digitChar10 (n % 10)]

/-- Embeds Python `str(n)` for a nonnegative int `n`. -/
def natDecimal (n : Nat) : String := String.mk (natDecimalAux (n + 1) n)

/-- Embeds Python `int(s)` on a string of decimal digits. -/
def pyIntOfStr (s : String) : Int :=
  Int.ofNat (s.data.foldl (fun acc c => acc * 10 + (c.toNat - 48)) 0)

/-- Embeds Python `math.floor` on an exact rational value, in an executable
form (Euclidean division of the numerator by the positive denominator). -/
def ratFloor (q : Rat) : Int := q.num / (q.den : Int)

/-- The executable floor agrees with the mathematical floor. -/
theorem ratFloor_eq_floor (q : Rat) : ratFloor q = ⌊q⌋ := Rat.floor_def.symm

/-- Embeds the band computation in `utm` from shapeup/sr.py:
`(math.floor((lon + 180) / 6) % 60) + 1`, with Python `%` on ints matching
`Int.emod` for the positive modulus 60. -/
def utmBand (lon : Rat) : Int := (ratFloor ((lon + 180) / 6)) % 60 + 1

/-- Embeds the band string in `utm`: the band rendered with `str` and padded
on the left with a `0` when it has a single character. -/
def padTwo (b : Int) : String :=
  let s := natDecimal b.toNat
  if s.length == 1 then "0" ++ s else s

/-- Embeds `utm` from shapeup/sr.py: the SRID is `int(f'326{utm_band}')`
when `lat >= 0` and `int(f'327{utm_band}')` otherwise, and the result is the
spatial reference with that SRID and the EPSG authority (the `sr` factory
consulted there is a value-transparent cache). -/
def utm (lat lon : Rat) : Sr :=
  let bandStr := padTwo (utmBand lon)
  { srid :=
      if 0 ≤ lat then pyIntOfStr ("326" ++ bandStr)
      else pyIntOfStr ("327" ++ bandStr),
    authority := "epsg" }

/-- Bounds of the UTM band: the Python band expression always lands in 1..60. -/
theorem utmBand_bounds (lon : Rat) : 1 ≤ utmBand lon ∧ utmBand lon ≤ 60 := by
  unfold utmBand
  have h1 : 0 ≤ (ratFloor ((lon + 180) / 6)) % 60 :=
    Int.emod_nonneg _ (by norm_num)
  have h2 : (ratFloor ((lon + 180) / 6)) % 60 < 60 :=
    Int.emod_lt_of_pos _ (by norm_num)
  omega

/-- Decimal concatenation of the northern prefix with a two-digit band. -/
theorem pyIntOfStr_concat_326 :
    ∀ b : Int, 1 ≤ b → b ≤ 60 → pyIntOfStr ("326" ++ padTwo b) = 32600 + b := by
  intro b h1 h2
  interval_cases b <;> decide

/-- Decimal concatenation of the southern prefix with a two-digit band. -/
theorem pyIntOfStr_concat_327 :
    ∀ b : Int, 1 ≤ b → b ≤ 60 → pyIntOfStr ("327" ++ padTwo b) = 32700 + b := by
  intro b h1 h2
  interval_cases b <;> decide

/-- Arithmetic characterization of the string-built SRID. -/
theorem utm_srid_characterization (lat lon : Rat) :
    utm lat lon =
      { srid := (if 0 ≤ lat then 32600 else 32700) + utmBand lon,
        authority := "epsg" } := by
  have hb := utmBand_bounds lon
  unfold utm
  by_cases h : 0 ≤ lat
  · simp only [h, if_true]
    rw [pyIntOfStr_concat_326 (utmBand lon) hb.1 hb.2]
  · simp only [h, if_false]
    rw [pyIntOfStr_concat_327 (utmBand lon) hb.1 hb.2]

/-- Coordinate pair of a Shapely geometry (x and y, modelled as rationals). -/
structure Coord where
  x : Rat
  y : Rat
deriving DecidableEq, Repr

/-- Model of the Shapely base geometries the wrappers hold: points,
linestrings, and polygons given by their coordinate rings. -/
inductive Geom
  | point (c : Coord)
  | lineString (cs : List Coord)
  | polygon (rings : List (List Coord))
deriving DecidableEq, Repr

/-- Python truthiness of a Shapely geometry: an empty geometry is falsy, so
`not geometry` in `SrGeometry.__eq__` is true exactly on empty geometries. -/
def geomTruthy : Geom → Bool
  | .point _ => true
  | .lineString cs => !cs.isEmpty
  | .polygon rs => !rs.isEmpty

/-- Embeds `shapely.ops.transform(fn, geom)`: applies the coordinate
function to every coordinate of the geometry. -/
def mapCoords (f : Coord → Coord) : Geom → Geom
  | .point c => .point (f c)
  | .lineString cs => .lineString (cs.map f)
  | .polygon rs => .polygon (rs.map fun r => r.map f)

/-- Black-box operations of the external Shapely and pyproj engines that the
wrappers delegate to (declared out of scope by the spec): representative
point, centroid, midpoint interpolation at normalized fraction 0.5,
buffering by a radius, the topological equality test, and the coordinate
transform function obtained from `transform_fn` for a pair of spatial
references (the transform-function cache is value-transparent, so the cached
lookup is modelled by direct application). -/
structure Engine where
  representativePoint : Geom → Coord
  centroid : Geom → Coord
  interpolateHalf : Geom → Coord
  bufferGeom : Geom → Rat → Geom
  equalsGeom : Geom → Geom → Bool
  projTransform : Sr → Sr → Coord → Coord

/-- Runtime class of a wrapper instance: the base `SrGeometry` class or one
of its variants `SrPoint`, `SrPolyline`, `SrPolygon` from
shapeup/geometry/base.py. -/
inductive GKind
  | base
  | point
  | polyline
  | polygon
deriving DecidableEq, Repr

/-- Embeds a wrapper instance: its runtime class, the base geometry it holds
and its spatial reference. -/
structure SrGeometry where
  kind : GKind
  base_geometry : Geom
  sr : Sr
deriving DecidableEq, Repr

/-- Records the object identity of a method result: `same` models a method
returning `self` (the identical Python object), `fresh` models a newly
constructed object. -/
inductive ObjResult
  | same (w : SrGeometry)
  | fresh (w : SrGeometry)
deriving DecidableEq, Repr

/-- The wrapper value carried by either result. -/
def ObjResult.get : ObjResult → SrGeometry
  | .same w => w
  | .fresh w => w

/-- Embeds `SrGeometry.__copy__`: a new instance of `self.__class__` holding
a deep copy of the base geometry and sharing the (immutable) `sr` value; on
immutable values the deep copy is the same value. -/
def SrGeometry.copy (w : SrGeometry) : SrGeometry :=
  { kind := w.kind, base_geometry := w.base_geometry, sr := w.sr }

/-- Embeds `SrGeometry.transform`: when the target reference equals the
current one the result is `copy.copy(self)` (or `self` itself when `copy_`
is false); otherwise the transform function for the reference pair is
applied to every coordinate via `shapely.ops.transform` and a new base-class
`SrGeometry` is built around the transformed geometry with the target
reference. -/
def SrGeometry.transform (e : Engine) (w : SrGeometry) (sr_ : Sr) (copy_ : Bool) :
    ObjResult :=
  if sr_ = w.sr then
    if copy_ then .fresh w.copy else .same w
  else
    .fresh { kind := .base,
             base_geometry := mapCoords (e.projTransform w.sr sr_) w.base_geometry,
             sr := sr_ }

/-- Embeds `SrGeometry.as_wgs84`: `self` when the current reference equals
the WGS-84 constant, otherwise `self.transform(sr_=WGS_84)`. -/
def SrGeometry.as_wgs84 (e : Engine) (w : SrGeometry) : ObjResult :=
  if w.sr = WGS_84 then .same w
  else w.transform e WGS_84 true

/-- Representative point used by `as_utm`: taken directly from the base
geometry when the wrapper is already WGS-84, and otherwise from the geometry
transformed to WGS-84 first. -/
def SrGeometry.utmRepPoint (e : Engine) (w : SrGeometry) : Coord :=
  if w.sr = WGS_84 then e.representativePoint w.base_geometry
  else e.representativePoint ((w.transform e WGS_84 true).get).base_geometry

/-- Embeds `SrGeometry.as_utm`: computes the UTM zone of the representative
point (latitude is the y coordinate, longitude the x coordinate), returns
`self` when that zone equals the current reference, and otherwise transforms
to that zone. -/
def SrGeometry.as_utm (e : Engine) (w : SrGeometry) : ObjResult :=
  let rp := w.utmRepPoint e
  let utm_sr := utm rp.y rp.x
  if utm_sr = w.sr then .same w
  else w.transform e utm_sr true

/-- Embeds `SrGeometry.buffer` (inherited unchanged by `SrPoint.buffer`,
whose body is a runtime no-op cast of this result): obtains the UTM form via
`as_utm`, buffers its base geometry by `meters(n, units)`, wraps the
buffered geometry in a base-class `SrGeometry` carrying the UTM reference,
and transforms that wrapper back to the original reference.  The exception a
bad units value raises inside `meters` propagates to the caller. -/
def SrGeometry.buffer (e : Engine) (w : SrGeometry) (n : Rat) (units : UnitsArg) :
    Except PyError SrGeometry := do
  let base_utm := (w.as_utm e).get
  let d ← meters n units
  let base_utm_buf := e.bufferGeom base_utm.base_geometry d
  let sr_geom_buf : SrGeometry :=
    { kind := .base, base_geometry := base_utm_buf, sr := base_utm.sr }
  pure ((sr_geom_buf.transform e w.sr true).get)

/-- Embeds `location`: `SrPoint.location` returns `self`,
`SrPolyline.location` wraps the point interpolated at normalized fraction
0.5 along the line, and the base implementation (not overridden by
`SrPolygon`) wraps the centroid, each with the same `sr`. -/
def SrGeometry.location (e : Engine) (w : SrGeometry) : SrGeometry :=
  match w.kind with
  | .point => w
  | .polyline =>
    { kind := .point, base_geometry := .point (e.interpolateHalf w.base_geometry),
      sr := w.sr }
  | _ =>
    { kind := .point, base_geometry := .point (e.centroid w.base_geometry),
      sr := w.sr }

/-- Values a wrapper can be compared against with `==`: `None`, another
wrapper, or an arbitrary object lacking the `_sr` and `_base_geometry`
attributes (with its Python truthiness recorded). -/
inductive PyObj
  | pyNone
  | wrapper (w : SrGeometry)
  | plainObj (truthy : Bool)
deriving DecidableEq, Repr

/-- Embeds `SrGeometry.__eq__`: a falsy operand fails the `if not other`
guard and compares unequal; on an object lacking the expected attributes the
`getattr` call raises `AttributeError`, which is caught and yields unequal;
otherwise the spatial references are compared field-wise, a wrapper holding
an empty geometry is equal only to one whose geometry is also empty, and
nonempty geometries are compared with the engine's topological `equals`
test. -/
def SrGeometry.pyEq (e : Engine) (w : SrGeometry) : PyObj → Bool
  | .pyNone => false
  | .plainObj _ => false
  | .wrapper other =>
    if w.sr = other.sr then
      if geomTruthy w.base_geometry then
        e.equalsGeom w.base_geometry other.base_geometry
      else
        !(geomTruthy other.base_geometry)
    else false

/-- JSON-compatible values: null, booleans, integers, numbers, strings,
arrays and string-keyed objects.  A value of this type survives a generic
JSON encode and decode unchanged, so producing a value of this type models
the round-trip-safety requirement on the export mapping. -/
inductive JValue
  | jnull
  | jbool (b : Bool)
  | jint (n : Int)
  | jnum (q : Rat)
  | jstr (s : String)
  | jarr (xs : List JValue)
  | jobj (fields : List (String × JValue))

/-- Dictionary lookup on a JSON object, as in `data['k']` / `data.get('k')`;
`none` models a missing key. -/
def jLookup (v : JValue) (k : String) : Option JValue :=
  match v with
  | .jobj fields => fields.lookup k
  | _ => none

/-- Python truthiness of a JSON value, as consulted by the `if not data`
guard in `SrGeometry.load`. -/
def jFalsy : JValue → Bool
  | .jnull => true
  | .jbool b => !b
  | .jint n => n == 0
  | .jnum q => q == 0
  | .jstr s => s.isEmpty
  | .jarr xs => xs.isEmpty
  | .jobj fields => fields.isEmpty

/-- GeoJSON coordinate pair as produced by `shapely.geometry.mapping`. -/
def coordJ (c : Coord) : JValue := .jarr [.jnum c.x, .jnum c.y]

/-- Embeds `shapely.geometry.mapping`: the GeoJSON-like interchange mapping
of a geometry, a type tag together with the coordinates. -/
def mappingGeom : Geom → JValue
  | .point c =>
    .jobj [("type", .jstr "Point"), ("coordinates", coordJ c)]
  | .lineString cs =>
    .jobj [("type", .jstr "LineString"), ("coordinates", .jarr (cs.map coordJ))]
  | .polygon rs =>
    .jobj [("type", .jstr "Polygon"),
           ("coordinates", .jarr (rs.map fun r => .jarr (r.map coordJ)))]

/-- Parses a GeoJSON coordinate pair; `none` models a malformed pair. -/
def parseCoord : JValue → Option Coord
  | .jarr [.jnum x, .jnum y] => some { x := x, y := y }
  | _ => none

/-- Parses a GeoJSON coordinate list, failing if any entry is malformed. -/
def parseCoordList : List JValue → Option (List Coord)
  | [] => some []
  | v :: vs =>
    match parseCoord v, parseCoordList vs with
    | some c, some cs => some (c :: cs)
    | _, _ => none

/-- Parses one GeoJSON polygon ring. -/
def parseRing : JValue → Option (List Coord)
  | .jarr cs => parseCoordList cs
  | _ => none

/-- Parses a GeoJSON ring list, failing if any ring is malformed. -/
def parseRingList : List JValue → Option (List (List Coord))
  | [] => some []
  | v :: vs =>
    match parseRing v, parseRingList vs with
    | some r, some rs => some (r :: rs)
    | _, _ => none

/-- Embeds `shapely.geometry.shape`: rebuilds a geometry from its
interchange mapping; `none` models the exception raised on malformed or
absent input. -/
def shapeGeom (v : JValue) : Option Geom :=
  match jLookup v "type", jLookup v "coordinates" with
  | some (.jstr "Point"), some c => (parseCoord c).map .point
  | some (.jstr "LineString"), some (.jarr cs) =>
    (parseCoordList cs).map .lineString
  | some (.jstr "Polygon"), some (.jarr rs) =>
    (parseRingList rs).map .polygon
  | _, _ => none

/-- Modelled from the spec: `pyfqn` from the shapeup types module, which is
not among the provided sources, returns the fully qualified type name used
as the `__type__` tag by `SrGeometry.export`. -/
def pyfqn : GKind → String
  | .base => "shapeup.geometry.base.SrGeometry"
  | .point => "shapeup.geometry.base.SrPoint"
  | .polyline => "shapeup.geometry.base.SrPolyline"
  | .polygon => "shapeup.geometry.base.SrPolygon"

/-- Modelled from the spec: `pycls` (imported as `cls_`) from the shapeup
types module, which is not among the provided sources, resolves a fully
qualified type name back to the wrapper class; per the spec an unrecognized
tag makes `load` fall back to the base wrapper type, modelled by `none`. -/
def pycls (t : String) : Option GKind :=
  if t = pyfqn .base then some .base
  else if t = pyfqn .point then some .point
  else if t = pyfqn .polyline then some .polyline
  else if t = pyfqn .polygon then some .polygon
  else none

/-- Embeds `Sr._asdict()`: the named tuple exported field by field. -/
def srAsDict (s : Sr) : JValue :=
  .jobj [("srid", .jint s.srid), ("authority", .jstr s.authority)]

/-- Embeds `SrGeometry.export`: a mapping holding the fully qualified type
name, the geometry interchange mapping, and the `Sr` fields; every value in
it is JSON-compatible by construction.  The Lean name carries a trailing
underscore because `export` is a keyword. -/
def SrGeometry.export_ (w : SrGeometry) : JValue :=
  .jobj [("__type__", .jstr (pyfqn w.kind)),
         ("base_geometry", mappingGeom w.base_geometry),
         ("sr_", srAsDict w.sr)]

/-- Embeds `Sr(**mapping)`: the `srid` field is required, the `authority`
field falls back to the named tuple's default `epsg` when absent; `none`
models the `TypeError` raised on malformed input. -/
def parseSr (v : JValue) : Option Sr :=
  match jLookup v "srid" with
  | some (.jint n) =>
    match jLookup v "authority" with
    | some (.jstr a) => some { srid := n, authority := a }
    | some _ => none
    | none => some { srid := n, authority := "epsg" }
  | _ => none

/-- Embeds `SrGeometry.load` as invoked on the base class: an empty or
absent mapping yields `None`; the concrete class is resolved from the
`__type__` tag, a missing tag (`KeyError` on the subscript, caught) or an
unrecognized tag falling back to the base class; the geometry and the `Sr`
are then rebuilt from their fields by the resolved class's constructor, a
failure of either modelled as `loadError`. -/
def SrGeometry.load (data : JValue) : Except PyError (Option SrGeometry) :=
  if jFalsy data then .ok none
  else
    let kind :=
      match jLookup data "__type__" with
      | some (.jstr t) => (pycls t).getD .base
      | some _ => .base
      | none => .base
    match shapeGeom ((jLookup data "base_geometry").getD .jnull),
          parseSr ((jLookup data "sr_").getD .jnull) with
    | some g, some s => .ok (some { kind := kind, base_geometry := g, sr := s })
    | _, _ => .error .loadError

/-- Concrete engine used to evaluate the development on example inputs: the
representative point, centroid, and midpoint all pick a vertex, buffering
returns a square with side length twice the radius, topological equality is
structural equality, and the projection transform shifts the x coordinate by
the difference of the SRIDs. -/
def engEx : Engine :=
  { representativePoint := fun g =>
      match g with
      | .point c => c
      | .lineString cs => cs.headD { x := 0, y := 0 }
      | .polygon rs => (rs.headD []).headD { x := 0, y := 0 },
    centroid := fun g =>
      match g with
      | .point c => c
      | .lineString cs => cs.headD { x := 0, y := 0 }
      | .polygon rs => (rs.headD []).headD { x := 0, y := 0 },
    interpolateHalf := fun g =>
      match g with
      | .point c => c
      | .lineString cs => (cs.drop 1).headD { x := 0, y := 0 }
      | .polygon rs => (rs.headD []).headD { x := 0, y := 0 },
    bufferGeom := fun _ d =>
      .polygon [[{ x := d, y := d }, { x := -d, y := d },
                 { x := -d, y := -d }, { x := d, y := -d }]],
    equalsGeom := fun a b => a == b,
    projTransform := fun f t c =>
      { x := c.x + ((t.srid - f.srid : Int) : Rat), y := c.y } }

/-- The example engine's equality test is reflexive (structural equality). -/
theorem engEx_equals_refl : ∀ g : Geom, engEx.equalsGeom g g = true := by
  intro g
  simp [engEx]

/-- Example wrapper: the WGS-84 point at latitude 45, longitude -94 (the
kind of point the repository's test suite builds with `from_lat_lon`). -/
def wPointEx : SrGeometry :=
  { kind := .point, base_geometry := .point { x := -94, y := 45 }, sr := WGS_84 }

/-- Example wrapper: a polyline in an arbitrary projected reference. -/
def wLineEx : SrGeometry :=
  { kind := .polyline,
    base_geometry := .lineString [{ x := 0, y := 0 }, { x := 2, y := 2 }],
    sr := { srid := 3857, authority := "epsg" } }

/-- Example wrapper carrying a UTM spatial reference (zone 56 south) whose
geometry actually lies in UTM zone 15 north: the x coordinate is chosen so
that the example engine's shift to WGS-84 lands it at longitude -94,
latitude 45. -/
def wWrongZoneEx : SrGeometry :=
  { kind := .point,
    base_geometry := .point { x := 28336, y := 45 },
    sr := { srid := 32756, authority := "epsg" } }

/-- Band of longitude -94. -/
theorem utmBand_lon_m94 : utmBand (-94) = 15 := by
  rw [utmBand, ratFloor_eq_floor]; norm_num

/-- Band of longitude 151. -/
theorem utmBand_lon_151 : utmBand 151 = 56 := by
  rw [utmBand, ratFloor_eq_floor]; norm_num

/-- Band of longitude 179.9: the last band before the antimeridian. -/
theorem utmBand_lon_1799d10 : utmBand (1799 / 10) = 60 := by
  rw [utmBand, ratFloor_eq_floor]; norm_num

/-- Band of longitude -180: the first band. -/
theorem utmBand_lon_m180 : utmBand (-180) = 1 := by
  rw [utmBand, ratFloor_eq_floor]; norm_num

/-- Band of longitude 180 wraps modulo 60 back to the first band. -/
theorem utmBand_lon_180 : utmBand 180 = 1 := by
  rw [utmBand, ratFloor_eq_floor]; norm_num

/-- UTM zone of latitude 45, longitude -94: zone 15 north. -/
theorem utm_at_45_m94 : utm 45 (-94) = { srid := 32615, authority := "epsg" } := by
  rw [utm_srid_characterization]
  norm_num [utmBand_lon_m94]

/-- UTM zone of latitude -33, longitude 151: zone 56 south. -/
theorem utm_at_m33_151 : utm (-33) 151 = { srid := 32756, authority := "epsg" } := by
  rw [utm_srid_characterization]
  norm_num [utmBand_lon_151]

/-- The spatial reference returned by `transform` is always the requested
target (in the identity branch the copy keeps `sr`, which is the target). -/
theorem transform_get_sr (e : Engine) (w : SrGeometry) (t : Sr) (c : Bool) :
    ((w.transform e t c).get).sr = t := by
  unfold SrGeometry.transform
  by_cases h : t = w.sr
  · simp [h, ObjResult.get, SrGeometry.copy]
    cases c <;> simp [ObjResult.get, SrGeometry.copy]
  · simp [h, ObjResult.get]

/-- The runtime class of a `transform` result: preserved in the identity
branch (the copy is built with `self.__class__`), the base class otherwise. -/
theorem transform_get_kind (e : Engine) (w : SrGeometry) (t : Sr) (c : Bool) :
    ((w.transform e t c).get).kind = if t = w.sr then w.kind else .base := by
  unfold SrGeometry.transform
  by_cases h : t = w.sr
  · cases c <;> simp [h, ObjResult.get, SrGeometry.copy]
  · simp [h, ObjResult.get]

/-- A wrapper passes the engine-reflexivity equality test against itself. -/
theorem pyEq_self (e : Engine) (w : SrGeometry)
    (h : ∀ g, e.equalsGeom g g = true) :
    w.pyEq e (PyObj.wrapper w) = true := by
  unfold SrGeometry.pyEq
  by_cases hg : geomTruthy w.base_geometry
  · simp [hg, h]
  · simp [hg]

/-- Parsing a coordinate pair inverts producing one. -/
theorem parseCoord_coordJ (c : Coord) : parseCoord (coordJ c) = some c := rfl

/-- Parsing a coordinate list inverts producing one. -/
theorem parseCoordList_coordJ (cs : List Coord) :
    parseCoordList (cs.map coordJ) = some cs := by
  induction cs with
  | nil => rfl
  | cons c rest ih => simp [parseCoordList, parseCoord_coordJ, ih]

/-- Parsing a ring list inverts producing one. -/
theorem parseRingList_coordJ (rs : List (List Coord)) :
    parseRingList (rs.map fun r => JValue.jarr (r.map coordJ)) = some rs := by
  induction rs with
  | nil => rfl
  | cons r rest ih => simp [parseRingList, parseRing, parseCoordList_coordJ, ih]

/-- Rebuilding a geometry from its interchange mapping recovers it exactly. -/
theorem shapeGeom_mappingGeom (g : Geom) : shapeGeom (mappingGeom g) = some g := by
  cases g with
  | point c => rfl
  | lineString cs =>
    simp [mappingGeom, shapeGeom, jLookup, List.lookup, parseCoordList_coordJ]
  | polygon rs =>
    simp [mappingGeom, shapeGeom, jLookup, List.lookup, parseRingList_coordJ]

/-- Resolving the fully qualified name of a class yields that class. -/
theorem pycls_pyfqn (k : GKind) : pycls (pyfqn k) = some k := by
  cases k <;> rfl

/-- Rebuilding an `Sr` from its exported fields recovers it exactly. -/
theorem parseSr_srAsDict (s : Sr) : parseSr (srAsDict s) = some s := rfl

/-- An export mapping is never falsy (it has three fields). -/
theorem jFalsy_export (w : SrGeometry) : jFalsy w.export_ = false := rfl

/-- Loading an exported wrapper recovers the wrapper value exactly. -/
theorem load_export (w : SrGeometry) :
    SrGeometry.load w.export_ = Except.ok (some w) := by
  unfold SrGeometry.load SrGeometry.export_
  simp [jLookup, List.lookup, jFalsy, pycls_pyfqn, shapeGeom_mappingGeom,
        parseSr_srAsDict]

/-- C1: the claim states that `meters` multiplies the quantity by the
units-table factor, with `meters(1, kilometers) = 1000.0`.  The code divides
instead (`n/_meter_conversions[units]`), contradicting its own docstring
("convert a linear distance to its equivalent in meters"): evaluating at the
failing input gives 1/1000, not 1000, while `meters(1000, meters)` still
returns 1000 because the factor there is 1. -/
theorem meters_division_bug :
    meters 1 UnitsArg.KILOMETERS = Except.ok (1 / 1000) ∧
    meters 1 UnitsArg.KILOMETERS ≠ Except.ok 1000 ∧
    meters 1000 UnitsArg.METERS = Except.ok 1000 := by
  refine ⟨rfl, ?_, ?_⟩
  · intro hcontra
    have : (1 / 1000 : Rat) = 1000 := by
      have := Except.ok.inj hcontra
      exact this
    norm_num at this
  · show Except.ok ((1000 : Rat) / 1) = Except.ok 1000
    norm_num

/-- C4: for every latitude and longitude, `utm` returns the spatial
reference whose identifier is the decimal concatenation of the hemisphere
prefix (326 for a nonnegative latitude, so latitude 0 is northern, and 327
otherwise) with the two-digit zero-padded band
`floor((lon + 180) / 6) % 60 + 1`; in particular `utm 45 (-94)` has
identifier 32615, `utm (-33) 151` has prefix 327 and band 56, latitude 0
takes the northern prefix, and longitudes 179.9, -180 and 180 land in bands
60, 1 and 1, wrapping consistently at the antimeridian. -/
theorem utm_zone_resolution :
    (∀ lat lon : Rat, utm lat lon =
      { srid := (if 0 ≤ lat then 32600 else 32700) + utmBand lon,
        authority := "epsg" }) ∧
    utm 45 (-94) = { srid := 32615, authority := "epsg" } ∧
    utm (-33) 151 = { srid := 32756, authority := "epsg" } ∧
    utm 0 (-94) = { srid := 32615, authority := "epsg" } ∧
    utmBand (1799 / 10) = 60 ∧ utmBand (-180) = 1 ∧ utmBand 180 = 1 := by
  refine ⟨utm_srid_characterization, utm_at_45_m94, utm_at_m33_151, ?_,
    utmBand_lon_1799d10, utmBand_lon_m180, utmBand_lon_180⟩
  rw [utm_srid_characterization]
  norm_num [utmBand_lon_m94]

/-- C7: for every quantity and every units value without an entry in the
meter-conversion table, `meters` raises (the spec's UnknownUnitsError, the
`KeyError` of the table subscript), and the error surfaces unchanged through
`buffer` to its caller with no retry and no other result. -/
theorem unknown_units_propagates (e : Engine) (w : SrGeometry) (n : Rat)
    (u : UnitsArg) (h : meterConversions u = none) :
    meters n u = Except.error PyError.unknownUnits ∧
    SrGeometry.buffer e w n u = Except.error PyError.unknownUnits := by
  have hm : meters n u = Except.error PyError.unknownUnits := by
    unfold meters
    rw [h]
  refine ⟨hm, ?_⟩
  unfold SrGeometry.buffer
  rw [hm]
  rfl

/-- Witness for C7: a concrete unknown units value fails the conversion and
the failure propagates through a concrete buffer call. -/
theorem unknown_units_propagates_witness :
    meters 2 (UnitsArg.unknown "furlongs") = Except.error PyError.unknownUnits ∧
    SrGeometry.buffer engEx wPointEx 2 (UnitsArg.unknown "furlongs") =
      Except.error PyError.unknownUnits :=
  unknown_units_propagates engEx wPointEx 2 (UnitsArg.unknown "furlongs") rfl

/-- C8: two wrappers compare equal exactly when their spatial references are
equal and either both geometries are empty or both are nonempty and the
engine's topological equality test accepts them; comparison against `None`
or against any object lacking the wrapper attributes (truthy or falsy)
yields false, and the comparison is a total function, so no exception
escapes. -/
theorem eq_test_semantics (e : Engine) (a b : SrGeometry) (t : Bool) :
    (a.pyEq e (PyObj.wrapper b) = true ↔
      (a.sr = b.sr ∧
        ((geomTruthy a.base_geometry = false ∧
          geomTruthy b.base_geometry = false) ∨
         (geomTruthy a.base_geometry = true ∧
          e.equalsGeom a.base_geometry b.base_geometry = true)))) ∧
    a.pyEq e PyObj.pyNone = false ∧
    a.pyEq e (PyObj.plainObj t) = false := by
  refine ⟨?_, rfl, rfl⟩
  unfold SrGeometry.pyEq
  by_cases hsr : a.sr = b.sr
  · by_cases hg : geomTruthy a.base_geometry
    · simp [hsr, hg]
    · simp only [Bool.not_eq_true] at hg
      simp [hsr, hg]
  · simp [hsr]

/-- C3: for every wrapper, loading its export recovers the wrapper exactly
(same runtime class, geometry value and spatial reference), so the two sides
satisfy the wrapper equality of field-wise `sr` equality plus the engine's
topological geometry test whenever that test is reflexive; the export
consists of `JValue` constructors only, so it survives a generic JSON encode
and decode unchanged. -/
theorem export_load_round_trip (e : Engine) (w : SrGeometry)
    (h : ∀ g, e.equalsGeom g g = true) :
    SrGeometry.load w.export_ = Except.ok (some w) ∧
    w.pyEq e (PyObj.wrapper w) = true :=
  ⟨load_export w, pyEq_self e w h⟩

/-- Witness for C3: the round trip evaluated on a concrete point wrapper
with the concrete engine, whose equality test is reflexive. -/
theorem export_load_round_trip_witness :
    SrGeometry.load (SrGeometry.export_ wPointEx) = Except.ok (some wPointEx) ∧
    SrGeometry.pyEq engEx wPointEx (PyObj.wrapper wPointEx) = true :=
  export_load_round_trip engEx wPointEx engEx_equals_refl

/-- C9: `load` yields `None` on an empty or absent mapping; otherwise it
resolves the wrapper class from the type tag when the tag is present and
recognized, falls back to the base wrapper class when the tag is missing or
unrecognized, and builds the resolved class from the geometry parsed out of
the interchange mapping and the `Sr` parsed out of its fields. -/
theorem load_variant_dispatch :
    (∀ data, jFalsy data = true → SrGeometry.load data = Except.ok none) ∧
    (∀ data t k g s, jFalsy data = false →
      jLookup data "__type__" = some (JValue.jstr t) → pycls t = some k →
      shapeGeom ((jLookup data "base_geometry").getD JValue.jnull) = some g →
      parseSr ((jLookup data "sr_").getD JValue.jnull) = some s →
      SrGeometry.load data =
        Except.ok (some { kind := k, base_geometry := g, sr := s })) ∧
    (∀ data g s, jFalsy data = false →
      jLookup data "__type__" = none →
      shapeGeom ((jLookup data "base_geometry").getD JValue.jnull) = some g →
      parseSr ((jLookup data "sr_").getD JValue.jnull) = some s →
      SrGeometry.load data =
        Except.ok (some { kind := GKind.base, base_geometry := g, sr := s })) ∧
    (∀ data t g s, jFalsy data = false →
      jLookup data "__type__" = some (JValue.jstr t) → pycls t = none →
      shapeGeom ((jLookup data "base_geometry").getD JValue.jnull) = some g →
      parseSr ((jLookup data "sr_").getD JValue.jnull) = some s →
      SrGeometry.load data =
        Except.ok (some { kind := GKind.base, base_geometry := g, sr := s })) := by
  refine ⟨?_, ?_, ?_, ?_⟩
  · intro data hf
    simp [SrGeometry.load, hf]
  · intro data t k g s hf ht hk hg hs
    simp [SrGeometry.load, hf, ht, hk, hg, hs]
  · intro data g s hf ht hg hs
    simp [SrGeometry.load, hf, ht, hg, hs]
  · intro data t g s hf ht hk hg hs
    simp [SrGeometry.load, hf, ht, hk, hg, hs]

/-- Concrete mapping with an unrecognized type tag but well-formed geometry
and reference fields. -/
def dataBogusTag : JValue :=
  .jobj [("__type__", .jstr "not.a.known.type"),
         ("base_geometry", mappingGeom (.point { x := 1, y := 2 })),
         ("sr_", srAsDict WGS_84)]

/-- Concrete mapping with a recognized polyline type tag. -/
def dataPolylineTag : JValue :=
  .jobj [("__type__", .jstr "shapeup.geometry.base.SrPolyline"),
         ("base_geometry", mappingGeom (.lineString [{ x := 0, y := 0 }])),
         ("sr_", srAsDict WGS_84)]

/-- Witness for C9: loading an empty mapping yields `None`, a recognized
polyline tag builds the polyline class, and an unrecognized tag falls back
to the base class. -/
theorem load_variant_dispatch_witness :
    SrGeometry.load (JValue.jobj []) = Except.ok none ∧
    SrGeometry.load dataPolylineTag =
      Except.ok (some { kind := GKind.polyline,
                        base_geometry := .lineString [{ x := 0, y := 0 }],
                        sr := WGS_84 }) ∧
    SrGeometry.load dataBogusTag =
      Except.ok (some { kind := GKind.base,
                        base_geometry := .point { x := 1, y := 2 },
                        sr := WGS_84 }) := by
  refine ⟨load_variant_dispatch.1 (JValue.jobj []) rfl, ?_, ?_⟩
  · exact load_variant_dispatch.2.1 dataPolylineTag
      "shapeup.geometry.base.SrPolyline" GKind.polyline
      (.lineString [{ x := 0, y := 0 }]) WGS_84 rfl rfl rfl rfl rfl
  · exact load_variant_dispatch.2.2.2 dataBogusTag "not.a.known.type"
      (.point { x := 1, y := 2 }) WGS_84 rfl rfl rfl rfl rfl

/-- C6: transforming to the current spatial reference with the default copy
flag returns a distinct freshly constructed object, a copy that is
value-equal to the original (same class, same geometry value, shared `sr`)
and passes the geometric equality test whenever the engine's test is
reflexive; with the copy flag false the method returns `self`; and for any
other target the method returns a fresh base-class wrapper carrying the
target reference and the coordinate-mapped geometry. -/
theorem transform_identity_semantics (e : Engine) (w : SrGeometry) (t : Sr)
    (h : ∀ g, e.equalsGeom g g = true) :
    w.transform e w.sr true = ObjResult.fresh w.copy ∧
    w.copy = w ∧
    ((w.transform e w.sr true).get).sr = w.sr ∧
    ((w.transform e w.sr true).get).pyEq e (PyObj.wrapper w) = true ∧
    w.transform e w.sr false = ObjResult.same w ∧
    (t ≠ w.sr →
      w.transform e t true =
        ObjResult.fresh
          { kind := GKind.base,
            base_geometry := mapCoords (e.projTransform w.sr t) w.base_geometry,
            sr := t }) := by
  have hc : w.copy = w := rfl
  have hid : w.transform e w.sr true = ObjResult.fresh w.copy := by
    unfold SrGeometry.transform
    simp
  refine ⟨hid, hc, ?_, ?_, ?_, ?_⟩
  · rw [hid, hc]
    rfl
  · rw [hid, hc]
    exact pyEq_self e w h
  · unfold SrGeometry.transform
    simp
  · intro ht
    unfold SrGeometry.transform
    simp [ht]

/-- Witness for C6: the identity transform of a concrete polyline wrapper
with the concrete reflexive engine, and a transform of the same wrapper to
the distinct WGS-84 reference. -/
theorem transform_identity_semantics_witness :
    wLineEx.transform engEx wLineEx.sr true = ObjResult.fresh wLineEx.copy ∧
    wLineEx.copy = wLineEx ∧
    ((wLineEx.transform engEx wLineEx.sr true).get).sr = wLineEx.sr ∧
    ((wLineEx.transform engEx wLineEx.sr true).get).pyEq engEx
      (PyObj.wrapper wLineEx) = true ∧
    wLineEx.transform engEx wLineEx.sr false = ObjResult.same wLineEx ∧
    (WGS_84 ≠ wLineEx.sr →
      wLineEx.transform engEx WGS_84 true =
        ObjResult.fresh
          { kind := GKind.base,
            base_geometry :=
              mapCoords (engEx.projTransform wLineEx.sr WGS_84)
                wLineEx.base_geometry,
            sr := WGS_84 }) :=
  transform_identity_semantics engEx wLineEx WGS_84 engEx_equals_refl

/-- C5: `as_utm` returns `self` exactly when the current spatial reference
equals the UTM zone computed from the wrapper's own representative point
(taken after transforming to WGS-84 when the wrapper is not already
WGS-84), and otherwise transforms the wrapper to that computed zone, so a
wrapper sitting in a UTM zone other than the computed one is not
short-circuited; `as_wgs84` returns `self` exactly when the current
reference equals the WGS-84 constant and otherwise transforms to WGS-84. -/
theorem as_utm_as_wgs84_shortcircuit (e : Engine) (w : SrGeometry) :
    (w.as_utm e = ObjResult.same w ↔
      w.sr = utm (w.utmRepPoint e).y (w.utmRepPoint e).x) ∧
    (w.sr ≠ utm (w.utmRepPoint e).y (w.utmRepPoint e).x →
      w.as_utm e = w.transform e (utm (w.utmRepPoint e).y (w.utmRepPoint e).x) true) ∧
    (w.as_wgs84 e = ObjResult.same w ↔ w.sr = WGS_84) ∧
    (w.sr ≠ WGS_84 → w.as_wgs84 e = w.transform e WGS_84 true) := by
  refine ⟨?_, ?_, ?_, ?_⟩
  · unfold SrGeometry.as_utm
    by_cases hz : utm (w.utmRepPoint e).y (w.utmRepPoint e).x = w.sr
    · simp [hz, eq_comm]
    · simp only [hz, if_false]
      constructor
      · intro hcontra
        unfold SrGeometry.transform at hcontra
        rw [if_neg hz] at hcontra
        exact absurd hcontra (by simp)
      · intro hsr
        exact absurd hsr.symm hz
  · intro hne
    unfold SrGeometry.as_utm
    rw [if_neg (fun hcontra => hne hcontra.symm)]
  · unfold SrGeometry.as_wgs84
    by_cases hz : w.sr = WGS_84
    · simp [hz]
    · simp only [hz, if_false]
      constructor
      · intro hcontra
        unfold SrGeometry.transform at hcontra
        rw [if_neg (fun hc => hz hc.symm)] at hcontra
        exact absurd hcontra (by simp)
      · intro hsr
        exact hsr.elim
  · intro hne
    unfold SrGeometry.as_wgs84
    rw [if_neg hne]

/-- Representative point of the wrong-zone example wrapper: the engine first
shifts the geometry to WGS-84, landing at longitude -94, latitude 45. -/
theorem utmRepPoint_wWrongZoneEx :
    SrGeometry.utmRepPoint engEx wWrongZoneEx = { x := -94, y := 45 } := by
  have hne : wWrongZoneEx.sr ≠ WGS_84 := by decide
  unfold SrGeometry.utmRepPoint
  rw [if_neg hne]
  unfold SrGeometry.transform
  rw [if_neg (fun hc => hne hc.symm)]
  show engEx.representativePoint
    (mapCoords (engEx.projTransform wWrongZoneEx.sr WGS_84)
      wWrongZoneEx.base_geometry) = _
  simp only [engEx, wWrongZoneEx, mapCoords, WGS_84]
  norm_num

/-- Witness for C5: the example wrapper sits in UTM zone 56 south while its
representative point lies in zone 15 north, so it is not short-circuited and
both conversions transform it. -/
theorem as_utm_as_wgs84_shortcircuit_witness :
    wWrongZoneEx.as_utm engEx =
      wWrongZoneEx.transform engEx
        (utm (SrGeometry.utmRepPoint engEx wWrongZoneEx).y
             (SrGeometry.utmRepPoint engEx wWrongZoneEx).x) true ∧
    wWrongZoneEx.as_wgs84 engEx = wWrongZoneEx.transform engEx WGS_84 true := by
  have h1 : wWrongZoneEx.sr ≠
      utm (SrGeometry.utmRepPoint engEx wWrongZoneEx).y
          (SrGeometry.utmRepPoint engEx wWrongZoneEx).x := by
    rw [utmRepPoint_wWrongZoneEx]
    show wWrongZoneEx.sr ≠ utm 45 (-94)
    rw [utm_at_45_m94]
    decide
  have h2 : wWrongZoneEx.sr ≠ WGS_84 := by decide
  exact ⟨(as_utm_as_wgs84_shortcircuit engEx wWrongZoneEx).2.1 h1,
         (as_utm_as_wgs84_shortcircuit engEx wWrongZoneEx).2.2.2 h2⟩

/-- Unfolding of a successful `buffer` call: the result is the buffered
base-class UTM wrapper transformed back to the original reference. -/
theorem buffer_unfold (e : Engine) (w : SrGeometry) (n : Rat) (u : UnitsArg)
    (f : Rat) (h : meterConversions u = some f) :
    SrGeometry.buffer e w n u =
      Except.ok ((SrGeometry.transform e
        { kind := GKind.base,
          base_geometry := e.bufferGeom ((w.as_utm e).get).base_geometry (n / f),
          sr := ((w.as_utm e).get).sr } w.sr true).get) := by
  unfold SrGeometry.buffer meters
  rw [h]
  rfl

/-- C2 (amended): for a known units value, `buffer` applies the distance
conversion to `n`, obtains the UTM form via `as_utm`, buffers the UTM base
geometry by the converted distance, wraps the buffered geometry in a
base-class wrapper carrying the UTM reference, and transforms it back to the
original reference; the result is a base-class wrapper (not a
polygon-variant instance) whose spatial reference equals the original
wrapper's. -/
theorem buffer_pipeline (e : Engine) (w : SrGeometry) (n : Rat) (u : UnitsArg)
    (f : Rat) (h : meterConversions u = some f) :
    SrGeometry.buffer e w n u =
      Except.ok ((SrGeometry.transform e
        { kind := GKind.base,
          base_geometry := e.bufferGeom ((w.as_utm e).get).base_geometry (n / f),
          sr := ((w.as_utm e).get).sr } w.sr true).get) ∧
    ∃ wres, SrGeometry.buffer e w n u = Except.ok wres ∧
      wres.kind = GKind.base ∧ wres.sr = w.sr := by
  constructor
  · exact buffer_unfold e w n u f h
  · refine ⟨_, buffer_unfold e w n u f h, ?_, ?_⟩
    · rw [transform_get_kind]
      exact ite_self GKind.base
    · exact transform_get_sr e _ w.sr true

/-- Witness for C2 (amended): a concrete buffer call on the example point
with known meter units. -/
theorem buffer_pipeline_witness :
    SrGeometry.buffer engEx wPointEx 1 UnitsArg.METERS =
      Except.ok ((SrGeometry.transform engEx
        { kind := GKind.base,
          base_geometry :=
            engEx.bufferGeom ((wPointEx.as_utm engEx).get).base_geometry (1 / 1),
          sr := ((wPointEx.as_utm engEx).get).sr } wPointEx.sr true).get) ∧
    ∃ wres, SrGeometry.buffer engEx wPointEx 1 UnitsArg.METERS =
      Except.ok wres ∧ wres.kind = GKind.base ∧ wres.sr = wPointEx.sr :=
  buffer_pipeline engEx wPointEx 1 UnitsArg.METERS 1 rfl

/-- Counterexample for C2 as stated: buffering the concrete WGS-84 point by
one meter returns a wrapper of the base class, not a polygon-variant
instance (nor any other variant). -/
theorem buffer_not_polygon_variant :
    (SrGeometry.buffer engEx wPointEx 1 UnitsArg.METERS).map SrGeometry.kind =
      Except.ok GKind.base ∧
    GKind.base ≠ GKind.polygon ∧ GKind.base ≠ GKind.point := by
  refine ⟨?_, by decide, by decide⟩
  rw [buffer_unfold engEx wPointEx 1 UnitsArg.METERS 1 rfl]
  show Except.ok ((SrGeometry.transform engEx _ wPointEx.sr true).get.kind) = _
  rw [transform_get_kind]
  rw [ite_self]

/-- C10: transforming any variant wrapper to a different spatial reference
produces an instance of the base class, so the result's runtime class
differs from the variant's and the variant's overridden `location` behavior
is replaced by the base behavior of wrapping the centroid. -/
theorem transform_loses_variant (e : Engine) (w : SrGeometry) (t : Sr)
    (hk : w.kind ≠ GKind.base) (ht : t ≠ w.sr) :
    ((w.transform e t true).get).kind = GKind.base ∧
    ((w.transform e t true).get).kind ≠ w.kind ∧
    SrGeometry.location e ((w.transform e t true).get) =
      { kind := GKind.point,
        base_geometry :=
          Geom.point (e.centroid (((w.transform e t true).get).base_geometry)),
        sr := t } := by
  have hkind := transform_get_kind e w t true
  rw [if_neg ht] at hkind
  refine ⟨hkind, ?_, ?_⟩
  · rw [hkind]
    exact fun hcontra => hk hcontra.symm
  · have hsr := transform_get_sr e w t true
    unfold SrGeometry.location
    rw [hkind, hsr]

/-- Witness for C10: the concrete polyline wrapper transformed to WGS-84
comes back as a base-class wrapper whose `location` wraps the centroid. -/
theorem transform_loses_variant_witness :
    ((wLineEx.transform engEx WGS_84 true).get).kind = GKind.base ∧
    ((wLineEx.transform engEx WGS_84 true).get).kind ≠ wLineEx.kind ∧
    SrGeometry.location engEx ((wLineEx.transform engEx WGS_84 true).get) =
      { kind := GKind.point,
        base_geometry :=
          Geom.point
            (engEx.centroid (((wLineEx.transform engEx WGS_84 true).get).base_geometry)),
        sr := WGS_84 } :=
  transform_loses_variant engEx wLineEx WGS_84 (by decide) (by decide)
